import Mathlib

/-!
Verification of the deduplication / event-identity subsystem of the
inovar-alert-bot repository.

The development shallowly embeds:
  * `AlertChecker._normalize_date`, `AlertChecker._generate_event_id`,
    `AlertChecker._filter_new_events`, `AlertChecker._mark_events_notified`
    and `AlertChecker.check_alerts` from `src/services/alert_checker.py`;
  * `is_new_event`, `save_event_record` and `mark_event_notified` from
    `src/models/database.py`.

Machine-level details are embedded faithfully: event identities are the
first 32 hex characters of the SHA-256 digest of a UTF-8 encoded
discriminator string, so SHA-256 is implemented executably below (32-bit
words are `Nat` reduced modulo `2 ^ 32`).

The Azure Table Storage client is modelled as a `World`: an association
list keyed by RowKey plus a schedule of injected per-call storage faults
(a `true` entry makes the next client call raise) and a queue of
timestamps returned by `datetime.utcnow()`.  An empty fault schedule is
the reliable store.
-/

set_option maxRecDepth 8192

/-! ## SHA-256 (executable, 32-bit words as `Nat` mod `2 ^ 32`) -/

/-- Reduce modulo `2 ^ 32`, the word size of SHA-256. -/
def w32 (n : Nat) : Nat := n % 4294967296

/-- Rotate the 32-bit word `x` right by `n` bit positions. -/
def rotr (x n : Nat) : Nat := w32 ((x >>> n) ||| (x <<< (32 - n)))

/-- Bitwise complement of a 32-bit word. -/
def not32 (x : Nat) : Nat := 4294967295 ^^^ x

def bigSigma0 (x : Nat) : Nat := (rotr x 2) ^^^ (rotr x 13) ^^^ (rotr x 22)

def bigSigma1 (x : Nat) : Nat := (rotr x 6) ^^^ (rotr x 11) ^^^ (rotr x 25)

def smallSigma0 (x : Nat) : Nat := (rotr x 7) ^^^ (rotr x 18) ^^^ (x >>> 3)

def smallSigma1 (x : Nat) : Nat := (rotr x 17) ^^^ (rotr x 19) ^^^ (x >>> 10)

/-- The 64 SHA-256 round constants. -/
def shaK : List Nat :=
  [1116352408, 1899447441, 3049323471, 3921009573, 961987163, 1508970993,
   2453635748, 2870763221, 3624381080, 310598401, 607225278, 1426881987,
   1925078388, 2162078206, 2614888103, 3248222580, 3835390401, 4022224774,
   264347078, 604807628, 770255983, 1249150122, 1555081692, 1996064986,
   2554220882, 2821834349, 2952996808, 3210313671, 3336571891, 3584528711,
   113926993, 338241895, 666307205, 773529912, 1294757372, 1396182291,
   1695183700, 1986661051, 2177026350, 2456956037, 2730485921, 2820302411,
   3259730800, 3345764771, 3516065817, 3600352804, 4094571909, 275423344,
   430227734, 506948616, 659060556, 883997877, 958139571, 1322822218,
   1537002063, 1747873779, 1955562222, 2024104815, 2227730452, 2361852424,
   2428436474, 2756734187, 3204031479, 3329325298]

/-- The SHA-256 initial hash value. -/
def shaH0 : List Nat :=
  [1779033703, 3144134277, 1013904242, 2773480762,
   1359893119, 2600822924, 528734635, 1541459225]

/-- Big-endian conversion of a byte list to 32-bit words (4 bytes per word). -/
def bytesToWords : List Nat → List Nat
  | a :: b :: c :: d :: rest => (a * 16777216 + b * 65536 + c * 256 + d) :: bytesToWords rest
  | _ => []

/-- Message-schedule extension, keeping the words most-recent-first. -/
def extendRev : Nat → List Nat → List Nat
  | 0, l => l
  | k + 1, l =>
      let nw := w32 (l.getD 15 0 + smallSigma0 (l.getD 14 0) + l.getD 6 0 + smallSigma1 (l.getD 1 0))
      extendRev k (nw :: l)

/-- Expand the 16 words of a chunk into the 64-word message schedule. -/
def expandWords (ws : List Nat) : List Nat := (extendRev 48 ws.reverse).reverse

/-- One round of the SHA-256 compression function on the state `[a,b,c,d,e,f,g,h]`. -/
def compressRound (st : List Nat) (kw : Nat × Nat) : List Nat :=
  match st with
  | [a, b, c, d, e, f, g, h] =>
      let ch := (e &&& f) ^^^ (not32 e &&& g)
      let temp1 := w32 (h + bigSigma1 e + ch + kw.1 + kw.2)
      let maj := ((a &&& b) ^^^ (a &&& c)) ^^^ (b &&& c)
      let temp2 := w32 (bigSigma0 a + maj)
      [w32 (temp1 + temp2), a, b, c, w32 (d + temp1), e, f, g]
  | _ => st

/-- Process one 64-byte chunk against the running hash state. -/
def processChunk (st : List Nat) (chunk : List Nat) : List Nat :=
  let ws := expandWords (bytesToWords chunk)
  let st2 := (shaK.zip ws).foldl compressRound st
  List.zipWith (fun x y => w32 (x + y)) st st2

/-- Split a byte list into 64-byte chunks (structural recursion on a fuel). -/
def chunksGo : Nat → List Nat → List (List Nat)
  | 0, _ => []
  | _, [] => []
  | fuel + 1, l => l.take 64 :: chunksGo fuel (l.drop 64)

def chunksOf64 (l : List Nat) : List (List Nat) := chunksGo l.length l

/-- The 8-byte big-endian encoding of the message bit length. -/
def lenBytes (bitLen : Nat) : List Nat :=
  [bitLen / 72057594037927936 % 256, bitLen / 281474976710656 % 256,
   bitLen / 1099511627776 % 256, bitLen / 4294967296 % 256,
   bitLen / 16777216 % 256, bitLen / 65536 % 256, bitLen / 256 % 256, bitLen % 256]

/-- SHA-256 padding: `0x80`, zeros to 56 mod 64, then the 64-bit bit length. -/
def padMessage (msg : List Nat) : List Nat :=
  msg ++ 128 :: List.replicate ((119 - msg.length % 64) % 64) 0 ++ lenBytes (msg.length * 8)

/-- Big-endian conversion of 32-bit words back to bytes. -/
def wordsToBytes : List Nat → List Nat
  | [] => []
  | w :: rest => w / 16777216 % 256 :: w / 65536 % 256 :: w / 256 % 256 :: w % 256 :: wordsToBytes rest

/-- SHA-256 digest (32 bytes) of a byte list. -/
def sha256Bytes (msg : List Nat) : List Nat :=
  wordsToBytes ((chunksOf64 (padMessage msg)).foldl processChunk shaH0)

/-- The sixteen lowercase hex digit characters. -/
def hexChars : List Char := "0123456789abcdef".data

/-- Two lowercase hex characters for one byte. -/
def byteToHex (b : Nat) : List Char := [hexChars.getD (b / 16) '0', hexChars.getD (b % 16) '0']

/-- UTF-8 encoding of a single character. -/
def utf8EncodeChar (c : Char) : List Nat :=
  let n := c.toNat
  if n < 128 then [n]
  else if n < 2048 then [192 ||| (n >>> 6), 128 ||| (n &&& 63)]
  else if n < 65536 then [224 ||| (n >>> 12), 128 ||| ((n >>> 6) &&& 63), 128 ||| (n &&& 63)]
  else [240 ||| (n >>> 18), 128 ||| ((n >>> 12) &&& 63), 128 ||| ((n >>> 6) &&& 63), 128 ||| (n &&& 63)]

/-- UTF-8 encoding of a string, as a byte list. -/
def utf8Encode (s : String) : List Nat := (s.data.map utf8EncodeChar).flatten

/-- Lowercase hex digest of the SHA-256 hash of the UTF-8 encoding of a string,
mirroring Python's `hashlib.sha256(x.encode('utf-8')).hexdigest()`. -/
def sha256Hex (s : String) : String := String.mk ((sha256Bytes (utf8Encode s)).map byteToHex).flatten

/-- First `n` characters of a string, mirroring Python's slice `s[:n]`. -/
def strTake (s : String) (n : Nat) : String := String.mk (s.data.take n)

/-! ## Raw records and event identity (`src/services/alert_checker.py`) -/

/-- A raw scraped record: a string-keyed mapping with optional fields.
`none` models an absent dictionary key; `extra` models any further
incidental key/value pairs that identity derivation never reads. -/
structure RawRecord where
  date : Option String
  subject : Option String
  absence_type : Option String
  professor : Option String
  description : Option String
  extra : List (String × String)
deriving DecidableEq

/-- Python's `str.split("-")` on the character list of a string. -/
def splitDash : List Char → List (List Char)
  | [] => [[]]
  | c :: rest =>
      if c = '-' then [] :: splitDash rest
      else
        match splitDash rest with
        | [] => [[c]]
        | p :: ps => (c :: p) :: ps

/-- `AlertChecker._normalize_date` (alert_checker.py lines 198-211): empty or
`"unknown"` input yields `"unknown"`; a string containing `'-'` that splits
into exactly three parts whose first part has at most two characters is
reassembled as `parts[2]-parts[1]-parts[0]`; everything else is returned
unchanged. -/
def normalize_date (date_str : String) : String :=
  if date_str = "" ∨ date_str = "unknown" then "unknown"
  else if '-' ∈ date_str.data then
    let parts := splitDash date_str.data
    if parts.length = 3 ∧ (parts.getD 0 []).length ≤ 2 then
      String.mk (parts.getD 2 [] ++ '-' :: parts.getD 1 [] ++ '-' :: parts.getD 0 [])
    else date_str
  else date_str

/-- The pre-hash discriminator string built inside
`AlertChecker._generate_event_id` (alert_checker.py lines 174-188):
`event_type|normalized_date|subject|absence_type` for absences,
`event_type|normalized_date|professor|description` otherwise; a missing
field degrades to the empty string via `dict.get`. -/
def id_string (event : RawRecord) (event_type : String) : String :=
  let date_normalized := normalize_date (event.date.getD "unknown")
  if event_type = "absence" then
    event_type ++ "|" ++ date_normalized ++ "|" ++ event.subject.getD "" ++ "|" ++
      event.absence_type.getD ""
  else
    event_type ++ "|" ++ date_normalized ++ "|" ++ event.professor.getD "" ++ "|" ++
      event.description.getD ""

/-- `AlertChecker._generate_event_id` (alert_checker.py lines 164-196): the
first 32 hex characters of the SHA-256 digest of the UTF-8 encoded
discriminator string. -/
def generate_event_id (event : RawRecord) (event_type : String) : String :=
  strTake (sha256Hex (id_string event event_type)) 32

/-- Modelled from the spec (not from the source): the spec's `DD-MM-YYYY`
pattern test — exactly two digits, a hyphen, two digits, a hyphen, four
digits.  Used only to compare the spec's description of date
normalization with the implemented `normalize_date`. -/
def specMatchesDDMMYYYY (s : String) : Bool :=
  match s.data with
  | [d1, d2, k1, m1, m2, k2, y1, y2, y3, y4] =>
      d1.isDigit && d2.isDigit && k1 == '-' && m1.isDigit && m2.isDigit && k2 == '-' &&
        y1.isDigit && y2.isDigit && y3.isDigit && y4.isDigit
  | _ => false

/-- Modelled from the spec (not from the source): the rewrite the spec
prescribes for a `DD-MM-YYYY` string, `YYYY-MM-DD` built from its three
hyphen-separated parts. -/
def specRewrite (s : String) : String :=
  match splitDash s.data with
  | [d, m, y] => String.mk (y ++ '-' :: m ++ '-' :: d)
  | _ => s

/-! ## Event Store model (`src/models/database.py`) -/

/-- A persisted entity of the `alertevents` table (PartitionKey is always
`"event"`, the RowKey is the event identity and is kept as the key of the
association list). -/
structure EventEntity where
  event_type : String
  date : String
  description : String
  raw_data : String
  first_seen : String
  notified : Bool
deriving DecidableEq

/-- Lookup by RowKey in the table. -/
def lookupTable : List (String × EventEntity) → String → Option EventEntity
  | [], _ => none
  | (k, v) :: rest, id => if k = id then some v else lookupTable rest id

/-- Replace the entity stored under a RowKey (used by `update_entity`). -/
def setTable : List (String × EventEntity) → String → EventEntity → List (String × EventEntity)
  | [], _, _ => []
  | (k, v) :: rest, id, e => if k = id then (k, e) :: rest else (k, v) :: setTable rest id e

/-- The state of the modelled Azure Table Storage client: the table
contents, a schedule of injected storage faults (`true` makes the next
client call raise), and the queue of timestamps `datetime.utcnow()`
returns.  `today` is the string `datetime.now().strftime("%Y-%m-%d")`
used as default date in `_filter_new_events`. -/
structure World where
  table : List (String × EventEntity)
  faults : List Bool
  times : List String
  today : String
deriving DecidableEq

/-- Outcome of `client.get_entity`: the entity, a not-found error, or a
storage I/O error (both errors are Python exceptions). -/
inductive GetOutcome where
  | found (e : EventEntity)
  | errNotFound
  | errStorage
deriving DecidableEq

/-- Outcome of `client.create_entity`: success, an `EntityAlreadyExists`
conflict, or a storage I/O error. -/
inductive CreateOutcome where
  | ok
  | errConflict
  | errStorage
deriving DecidableEq

/-- `client.get_entity(partition_key="event", row_key=id)`: consumes one
fault-schedule entry; a scheduled fault raises a storage error, otherwise
the result is determined by the table contents. -/
def getEntity (w : World) (id : String) : GetOutcome × World :=
  match w.faults with
  | true :: r => (GetOutcome.errStorage, { w with faults := r })
  | false :: r =>
      match lookupTable w.table id with
      | some e => (GetOutcome.found e, { w with faults := r })
      | none => (GetOutcome.errNotFound, { w with faults := r })
  | [] =>
      match lookupTable w.table id with
      | some e => (GetOutcome.found e, w)
      | none => (GetOutcome.errNotFound, w)

/-- `client.create_entity(entity)`: a scheduled fault raises a storage
error; otherwise an existing RowKey raises `EntityAlreadyExists` and a
fresh RowKey appends the entity. -/
def createEntity (w : World) (id : String) (e : EventEntity) : CreateOutcome × World :=
  match w.faults with
  | true :: r => (CreateOutcome.errStorage, { w with faults := r })
  | false :: r =>
      match lookupTable w.table id with
      | some _ => (CreateOutcome.errConflict, { w with faults := r })
      | none => (CreateOutcome.ok, { w with faults := r, table := w.table ++ [(id, e)] })
  | [] =>
      match lookupTable w.table id with
      | some _ => (CreateOutcome.errConflict, w)
      | none => (CreateOutcome.ok, { w with table := w.table ++ [(id, e)] })

/-- `client.update_entity(entity)`: a scheduled fault raises, otherwise the
entity stored under the RowKey is replaced.  Returns whether it succeeded. -/
def updateEntity (w : World) (id : String) (e : EventEntity) : Bool × World :=
  match w.faults with
  | true :: r => (false, { w with faults := r })
  | false :: r => (true, { w with faults := r, table := setTable w.table id e })
  | [] => (true, { w with table := setTable w.table id e })

/-- `datetime.utcnow().isoformat()`: pops the next timestamp of the queue. -/
def utcNow (w : World) : String × World :=
  match w.times with
  | [] => ("", w)
  | t :: r => (t, { w with times := r })

/-- `is_new_event` (database.py lines 42-49): `get_entity` wrapped in a
`try`; a found entity yields `False`, ANY exception — not-found as well as
a storage I/O error — yields `True`. -/
def is_new_event (w : World) (event_id : String) : Bool × World :=
  match getEntity w event_id with
  | (GetOutcome.found _, w1) => (false, w1)
  | (GetOutcome.errNotFound, w1) => (true, w1)
  | (GetOutcome.errStorage, w1) => (true, w1)

/-- `save_event_record` (database.py lines 52-95): re-checks
`is_new_event`, creates the entity with `notified = False` and the
current `utcnow()` as `first_seen`, then performs a verification read;
every exception path returns `False` (conflicts and storage errors alike)
and nothing is ever re-raised. -/
def save_event_record (w : World) (event_id event_type date descr raw_data : String) :
    Bool × World :=
  match is_new_event w event_id with
  | (false, w1) => (false, w1)
  | (true, w1) =>
      let p := utcNow w1
      let entity : EventEntity :=
        { event_type := event_type, date := date, description := descr,
          raw_data := raw_data, first_seen := p.1, notified := false }
      match createEntity p.2 event_id entity with
      | (CreateOutcome.ok, w3) =>
          match getEntity w3 event_id with
          | (GetOutcome.found _, w4) => (true, w4)
          | (GetOutcome.errNotFound, w4) => (false, w4)
          | (GetOutcome.errStorage, w4) => (false, w4)
      | (CreateOutcome.errConflict, w3) => (false, w3)
      | (CreateOutcome.errStorage, w3) => (false, w3)

/-- `mark_event_notified` (database.py lines 98-107): reads the entity,
sets `notified = True` and updates it; every exception is caught and
logged, so the function never raises and a failure leaves the table
unchanged. -/
def mark_event_notified (w : World) (event_id : String) : World :=
  match getEntity w event_id with
  | (GetOutcome.found e, w1) => (updateEntity w1 event_id { e with notified := true }).2
  | (GetOutcome.errNotFound, w1) => w1
  | (GetOutcome.errStorage, w1) => w1

/-! ## Novelty filter and orchestrator (`src/services/alert_checker.py`) -/

/-- `json.dumps(event)`, modelled as an opaque serialization of the
record; no modelled code ever reads it back. -/
def dumpsEvent (r : RawRecord) : String :=
  "date=" ++ r.date.getD "" ++ ";subject=" ++ r.subject.getD "" ++ ";absence_type=" ++
    r.absence_type.getD "" ++ ";professor=" ++ r.professor.getD "" ++ ";description=" ++
    r.description.getD "" ++ ";extra=" ++ String.intercalate "," (r.extra.map (fun p => p.1 ++ "=" ++ p.2))

/-- `AlertChecker._filter_new_events` (alert_checker.py lines 128-162): for
each record in input order, derive the identity, consult `is_new_event`,
and on a new identity attempt `save_event_record`; the record enters the
output only when the save reports success.  The default date for a record
without a `date` key is `datetime.now().strftime("%Y-%m-%d")`, i.e.
`w.today`. -/
def filter_new_events (w : World) (events : List RawRecord) (event_type : String) :
    List RawRecord × World :=
  match events with
  | [] => ([], w)
  | e :: rest =>
      let event_id := generate_event_id e event_type
      match is_new_event w event_id with
      | (true, w1) =>
          match save_event_record w1 event_id event_type (e.date.getD w1.today)
              (e.description.getD "") (dumpsEvent e) with
          | (true, w2) =>
              let pr := filter_new_events w2 rest event_type
              (e :: pr.1, pr.2)
          | (false, w2) => filter_new_events w2 rest event_type
      | (false, w1) => filter_new_events w1 rest event_type

/-- The bundle returned by `InovarScraperLightweight.scrape_all` as consumed
by `check_alerts`. -/
structure ScrapeResult where
  success : Bool
  error : Option String
  absences : List RawRecord
  behavior_alerts : List RawRecord
deriving DecidableEq

/-- The result dictionary built by `AlertChecker.check_alerts`. -/
structure CheckResult where
  success : Bool
  new_absences : Nat
  new_behavior_alerts : Nat
  email_sent : Bool
  error : Option String
  timestamp : String
deriving DecidableEq

/-- External collaborators of one orchestrator run: the scrape outcome, the
configured recipients, and what the two `EmailNotifier` operations report. -/
structure Env where
  scrape : ScrapeResult
  recipients : List String
  alertEmailResult : Bool
  failureEmailResult : Bool
deriving DecidableEq

/-- Observable calls of one run: invocations of the Notifier and of
`mark_event_notified`, in order. -/
inductive ExtCall where
  | alertEmail (absences behavior_alerts : List RawRecord)
  | failureEmail (message : String)
  | markNotified (event_id : String)
deriving DecidableEq

/-- `AlertChecker._send_notification` (alert_checker.py lines 213-238): with
no configured recipients it returns `False` without invoking the
Notifier; otherwise `send_alert_email` is invoked and its report (with
any exception caught as `False`) is returned. -/
def send_notification (env : Env) (absences behavior_alerts : List RawRecord) :
    Bool × List ExtCall :=
  if env.recipients = [] then (false, [])
  else (env.alertEmailResult, [ExtCall.alertEmail absences behavior_alerts])

/-- `AlertChecker._send_failure_notification` (alert_checker.py lines
252-278), with the same recipients guard. -/
def send_failure_notification (env : Env) (message : String) : Bool × List ExtCall :=
  if env.recipients = [] then (false, [])
  else (env.failureEmailResult, [ExtCall.failureEmail message])

/-- `AlertChecker._mark_events_notified` (alert_checker.py lines 240-250):
iterate `new_absences + new_behavior_alerts`; the category of each event
is re-derived as `"absence"` when the event occurs in `new_absences`
(Python's `in` test) and `"behavior_alert"` otherwise. -/
def mark_events_notified_go (new_absences : List RawRecord) (w : World) :
    List RawRecord → World × List ExtCall
  | [] => (w, [])
  | e :: rest =>
      let ty := if e ∈ new_absences then "absence" else "behavior_alert"
      let event_id := generate_event_id e ty
      let w1 := mark_event_notified w event_id
      let pr := mark_events_notified_go new_absences w1 rest
      (pr.1, ExtCall.markNotified event_id :: pr.2)

def mark_events_notified (w : World) (new_absences new_behavior_alerts : List RawRecord) :
    World × List ExtCall :=
  mark_events_notified_go new_absences w (new_absences ++ new_behavior_alerts)

/-- `AlertChecker.check_alerts` (alert_checker.py lines 23-100): on a failed
scrape, record the error, send a failure notification and return
`success=False`; otherwise filter both categories, send the alert email
only when a filtered list is non-empty, mark events notified only when
that send reported success, and return `success=True`.  `init_db` only
logs a diagnostic row count and is modelled as effect-free; no modelled
component raises, so the orchestrator's top-level `except` is
unreachable.  `ts` is the `datetime.utcnow().isoformat()` taken when the
result dictionary is created. -/
def check_alerts (env : Env) (w : World) (ts : String) :
    CheckResult × World × List ExtCall :=
  if env.scrape.success = true then
    let pa := filter_new_events w env.scrape.absences "absence"
    let pb := filter_new_events pa.2 env.scrape.behavior_alerts "behavior_alert"
    if pa.1 ≠ [] ∨ pb.1 ≠ [] then
      let sent := send_notification env pa.1 pb.1
      if sent.1 = true then
        let mk := mark_events_notified pb.2 pa.1 pb.1
        ({ success := true, new_absences := pa.1.length, new_behavior_alerts := pb.1.length,
           email_sent := true, error := none, timestamp := ts }, mk.1, sent.2 ++ mk.2)
      else
        ({ success := true, new_absences := pa.1.length, new_behavior_alerts := pb.1.length,
           email_sent := false, error := none, timestamp := ts }, pb.2, sent.2)
    else
      ({ success := true, new_absences := pa.1.length, new_behavior_alerts := pb.1.length,
         email_sent := false, error := none, timestamp := ts }, pb.2, [])
  else
    let msg := env.scrape.error.getD "Scraping failed"
    let fc := send_failure_notification env ("Falha ao obter dados do portal Inovar: " ++ msg)
    ({ success := false, new_absences := 0, new_behavior_alerts := 0,
       email_sent := false, error := some msg, timestamp := ts }, w, fc.2)

/-- Number of records stored under one RowKey. -/
def countId (table : List (String × EventEntity)) (id : String) : Nat :=
  (table.filter (fun p => p.1 == id)).length

/-! ## Table-level helper lemmas -/

theorem lookupTable_append (t1 t2 : List (String × EventEntity)) (k : String) :
    lookupTable (t1 ++ t2) k =
      match lookupTable t1 k with
      | some v => some v
      | none => lookupTable t2 k := by
  induction t1 with
  | nil => simp [lookupTable]
  | cons p rest ih =>
      by_cases h : p.1 = k
      · simp [lookupTable, h]
      · simp [lookupTable, h, ih]

theorem lookupTable_none_all (t : List (String × EventEntity)) (k : String)
    (h : lookupTable t k = none) : ∀ p ∈ t, p.1 ≠ k := by
  induction t with
  | nil => intro p hp; cases hp
  | cons q rest ih =>
      intro p hp
      by_cases hq : q.1 = k
      · simp [lookupTable, hq] at h
      · rcases List.mem_cons.mp hp with hp | hp
        · subst hp; exact hq
        · exact ih (by simpa [lookupTable, hq] using h) p hp

theorem countId_eq_zero (t : List (String × EventEntity)) (k : String)
    (h : lookupTable t k = none) : countId t k = 0 := by
  unfold countId
  rw [List.length_eq_zero, List.filter_eq_nil_iff]
  intro p hp
  simpa using lookupTable_none_all t k h p hp

theorem countId_append (t1 t2 : List (String × EventEntity)) (k : String) :
    countId (t1 ++ t2) k = countId t1 k + countId t2 k := by
  unfold countId
  simp [List.filter_append]

/-! ## Store-operation helper lemmas -/

theorem getEntity_table (w : World) (id : String) : ((getEntity w id).2).table = w.table := by
  unfold getEntity
  rcases w with ⟨t, fs, ts, td⟩
  rcases fs with _ | ⟨f, r⟩
  · cases h : lookupTable t id <;> simp [h]
  · cases f <;> cases h : lookupTable t id <;> simp [h]

theorem getEntity_times (w : World) (id : String) : ((getEntity w id).2).times = w.times := by
  unfold getEntity
  rcases w with ⟨t, fs, ts, td⟩
  rcases fs with _ | ⟨f, r⟩
  · cases h : lookupTable t id <;> simp [h]
  · cases f <;> cases h : lookupTable t id <;> simp [h]

theorem getEntity_today (w : World) (id : String) : ((getEntity w id).2).today = w.today := by
  unfold getEntity
  rcases w with ⟨t, fs, ts, td⟩
  rcases fs with _ | ⟨f, r⟩
  · cases h : lookupTable t id <;> simp [h]
  · cases f <;> cases h : lookupTable t id <;> simp [h]

theorem getEntity_found (w : World) (id : String) (e : EventEntity)
    (h : (getEntity w id).1 = GetOutcome.found e) : lookupTable w.table id = some e := by
  unfold getEntity at h
  rcases w with ⟨t, fs, ts, td⟩
  rcases fs with _ | ⟨f, r⟩
  · cases hl : lookupTable t id <;> simp_all
  · cases f <;> [skip; simp_all] <;> cases hl : lookupTable t id <;> simp_all

theorem getEntity_notFound (w : World) (id : String)
    (h : (getEntity w id).1 = GetOutcome.errNotFound) : lookupTable w.table id = none := by
  unfold getEntity at h
  rcases w with ⟨t, fs, ts, td⟩
  rcases fs with _ | ⟨f, r⟩
  · cases hl : lookupTable t id <;> simp_all
  · cases f <;> [skip; simp_all] <;> cases hl : lookupTable t id <;> simp_all

theorem getEntity_nil_faults (w : World) (id : String) (h : w.faults = []) :
    (getEntity w id).2 = w := by
  unfold getEntity
  rcases w with ⟨t, fs, ts, td⟩
  simp only at h
  subst h
  cases hl : lookupTable t id <;> simp [hl]

theorem getEntity_faults_nil (w : World) (id : String) (h : w.faults = []) :
    ((getEntity w id).2).faults = [] := by
  rw [getEntity_nil_faults w id h]; exact h

theorem getEntity_nil_found (w : World) (id : String) (e : EventEntity) (h : w.faults = [])
    (hl : lookupTable w.table id = some e) : getEntity w id = (GetOutcome.found e, w) := by
  unfold getEntity
  rcases w with ⟨t, fs, ts, td⟩
  simp only at h hl
  subst h
  simp [hl]

theorem createEntity_ok (w : World) (id : String) (e : EventEntity)
    (h : (createEntity w id e).1 = CreateOutcome.ok) :
    lookupTable w.table id = none ∧ ((createEntity w id e).2).table = w.table ++ [(id, e)] := by
  unfold createEntity at h ⊢
  rcases w with ⟨t, fs, ts, td⟩
  rcases fs with _ | ⟨f, r⟩
  · cases hl : lookupTable t id <;> simp_all
  · cases f <;> [skip; simp_all] <;> cases hl : lookupTable t id <;> simp_all

theorem createEntity_not_ok (w : World) (id : String) (e : EventEntity)
    (h : (createEntity w id e).1 ≠ CreateOutcome.ok) :
    ((createEntity w id e).2).table = w.table := by
  unfold createEntity at h ⊢
  rcases w with ⟨t, fs, ts, td⟩
  rcases fs with _ | ⟨f, r⟩
  · cases hl : lookupTable t id <;> simp_all
  · cases f <;> [skip; simp_all] <;> cases hl : lookupTable t id <;> simp_all

theorem createEntity_mono (w : World) (id : String) (e : EventEntity) (k : String) (v : EventEntity)
    (h : lookupTable w.table k = some v) :
    lookupTable ((createEntity w id e).2).table k = some v := by
  by_cases hok : (createEntity w id e).1 = CreateOutcome.ok
  · rw [(createEntity_ok w id e hok).2, lookupTable_append, h]
  · rw [createEntity_not_ok w id e hok, h]

theorem createEntity_nil_faults (w : World) (id : String) (e : EventEntity) (h : w.faults = []) :
    ((createEntity w id e).2).faults = [] := by
  unfold createEntity
  rcases w with ⟨t, fs, ts, td⟩
  simp only at h
  subst h
  cases hl : lookupTable t id <;> simp [hl]

theorem createEntity_faults_tail (w : World) (id : String) (e : EventEntity) :
    ∃ n, ((createEntity w id e).2).faults = w.faults.drop n := by
  unfold createEntity
  rcases w with ⟨t, fs, ts, td⟩
  rcases fs with _ | ⟨f, r⟩
  · exact ⟨0, by cases hl : lookupTable t id <;> simp [hl]⟩
  · refine ⟨1, ?_⟩
    cases f <;> cases hl : lookupTable t id <;> simp [hl]

theorem utcNow_table (w : World) : ((utcNow w).2).table = w.table := by
  unfold utcNow
  rcases w with ⟨t, fs, ts, td⟩
  cases ts <;> simp

theorem utcNow_faults (w : World) : ((utcNow w).2).faults = w.faults := by
  unfold utcNow
  rcases w with ⟨t, fs, ts, td⟩
  cases ts <;> simp

theorem utcNow_today (w : World) : ((utcNow w).2).today = w.today := by
  unfold utcNow
  rcases w with ⟨t, fs, ts, td⟩
  cases ts <;> simp

/-! ## `is_new_event` and `save_event_record` helper lemmas -/

theorem is_new_event_table (w : World) (id : String) :
    ((is_new_event w id).2).table = w.table := by
  unfold is_new_event
  split
  all_goals
    rename_i w1 hg
    have := getEntity_table w id
    rw [hg] at this
    exact this

theorem is_new_event_times (w : World) (id : String) :
    ((is_new_event w id).2).times = w.times := by
  unfold is_new_event
  split
  all_goals
    rename_i w1 hg
    have := getEntity_times w id
    rw [hg] at this
    exact this

theorem is_new_event_today (w : World) (id : String) :
    ((is_new_event w id).2).today = w.today := by
  unfold is_new_event
  split
  all_goals
    rename_i w1 hg
    have := getEntity_today w id
    rw [hg] at this
    exact this

theorem is_new_event_faults_nil (w : World) (id : String) (h : w.faults = []) :
    ((is_new_event w id).2).faults = [] := by
  unfold is_new_event
  split
  all_goals
    rename_i w1 hg
    have := getEntity_faults_nil w id h
    rw [hg] at this
    exact this

theorem is_new_event_nil_skip (w : World) (id : String) (e : EventEntity) (h : w.faults = [])
    (hl : lookupTable w.table id = some e) : is_new_event w id = (false, w) := by
  unfold is_new_event
  rw [getEntity_nil_found w id e h hl]

theorem is_new_event_false_found (w : World) (id : String)
    (h : (is_new_event w id).1 = false) : ∃ e, lookupTable w.table id = some e := by
  unfold is_new_event at h
  split at h
  · rename_i e w1 hg
    exact ⟨e, getEntity_found w id e (by rw [hg])⟩
  · simp at h
  · simp at h

theorem save_true_spec (w : World) (id a b c d : String)
    (h : (save_event_record w id a b c d).1 = true) :
    lookupTable w.table id = none ∧
      ∃ ent : EventEntity, ent.notified = false ∧
        ((save_event_record w id a b c d).2).table = w.table ++ [(id, ent)] := by
  unfold save_event_record at h ⊢
  split at h
  · simp at h
  · rename_i w1 hn
    dsimp only at h ⊢
    split at h
    · rename_i w3 hc
      split at h
      · rename_i e w4 hg
        have htab1 : w1.table = w.table := by
          have := is_new_event_table w id
          rw [hn] at this
          exact this
        have htab2 : ((utcNow w1).2).table = w.table := by rw [utcNow_table, htab1]
        have hspec := createEntity_ok (utcNow w1).2 id _ (by rw [hc])
        have hw3 : w3.table = (utcNow w1).2.table ++
            [(id, { event_type := a, date := b, description := c, raw_data := d,
                    first_seen := (utcNow w1).1, notified := false })] := by
          have h2 := hspec.2
          rw [hc] at h2
          exact h2
        have htab4 : w4.table = w3.table := by
          have := getEntity_table w3 id
          rw [hg] at this
          exact this
        exact ⟨by rw [← htab2]; exact hspec.1, _, rfl,
          by dsimp only; rw [htab4, hw3, htab2]⟩
      · simp at h
      · simp at h
    · simp at h
    · simp at h

theorem save_table_mono (w : World) (id a b c d : String) (k : String) (v : EventEntity)
    (h : lookupTable w.table k = some v) :
    lookupTable ((save_event_record w id a b c d).2).table k = some v := by
  unfold save_event_record
  split
  · rename_i w1 hn
    have htab1 : w1.table = w.table := by
      have := is_new_event_table w id
      rw [hn] at this
      exact this
    dsimp only
    rw [htab1]
    exact h
  · rename_i w1 hn
    have htab1 : w1.table = w.table := by
      have := is_new_event_table w id
      rw [hn] at this
      exact this
    have htab2 : ((utcNow w1).2).table = w.table := by rw [utcNow_table, htab1]
    dsimp only
    split
    · rename_i w3 hc
      have h3 : lookupTable w3.table k = some v := by
        have := createEntity_mono (utcNow w1).2 id
          { event_type := a, date := b, description := c, raw_data := d,
            first_seen := (utcNow w1).1, notified := false } k v (by rw [htab2]; exact h)
        rw [hc] at this
        exact this
      split
      all_goals
        rename_i w4 hg
        dsimp only
        have htab4 : w4.table = w3.table := by
          have := getEntity_table w3 id
          rw [hg] at this
          exact this
        rw [htab4]
        exact h3
    · rename_i w3 hc
      have := createEntity_not_ok (utcNow w1).2 id
        { event_type := a, date := b, description := c, raw_data := d,
          first_seen := (utcNow w1).1, notified := false } (by rw [hc]; simp)
      rw [hc] at this
      dsimp only at this ⊢
      rw [this, htab2]
      exact h
    · rename_i w3 hc
      have := createEntity_not_ok (utcNow w1).2 id
        { event_type := a, date := b, description := c, raw_data := d,
          first_seen := (utcNow w1).1, notified := false } (by rw [hc]; simp)
      rw [hc] at this
      dsimp only at this ⊢
      rw [this, htab2]
      exact h

theorem save_new_entries (w : World) (id a b c d : String) (k : String) (e : EventEntity)
    (h : lookupTable ((save_event_record w id a b c d).2).table k = some e) :
    lookupTable w.table k = some e ∨ e.notified = false := by
  unfold save_event_record at h
  split at h
  · rename_i w1 hn
    have htab1 : w1.table = w.table := by
      have := is_new_event_table w id
      rw [hn] at this
      exact this
    dsimp only at h
    rw [htab1] at h
    exact Or.inl h
  · rename_i w1 hn
    have htab1 : w1.table = w.table := by
      have := is_new_event_table w id
      rw [hn] at this
      exact this
    have htab2 : ((utcNow w1).2).table = w.table := by rw [utcNow_table, htab1]
    dsimp only at h
    split at h
    · rename_i w3 hc
      have hspec := createEntity_ok (utcNow w1).2 id _ (by rw [hc])
      have hw3 : w3.table = w.table ++
          [(id, { event_type := a, date := b, description := c, raw_data := d,
                  first_seen := (utcNow w1).1, notified := false })] := by
        have h2 := hspec.2
        rw [hc] at h2
        dsimp only at h2
        rw [h2, htab2]
      have key : lookupTable w3.table k = some e →
          lookupTable w.table k = some e ∨ e.notified = false := by
        intro h3
        rw [hw3, lookupTable_append] at h3
        cases hl : lookupTable w.table k with
        | some v => rw [hl] at h3; exact Or.inl (by simpa using h3)
        | none =>
            rw [hl] at h3
            simp only [lookupTable] at h3
            by_cases hk : id = k
            · rw [if_pos hk] at h3
              right
              cases h3
              rfl
            · rw [if_neg hk] at h3
              cases h3
      split at h
      all_goals
        rename_i w4 hg
        dsimp only at h
        have htab4 : w4.table = w3.table := by
          have := getEntity_table w3 id
          rw [hg] at this
          exact this
        rw [htab4] at h
        exact key h
    · rename_i w3 hc
      have := createEntity_not_ok (utcNow w1).2 id
        { event_type := a, date := b, description := c, raw_data := d,
          first_seen := (utcNow w1).1, notified := false } (by rw [hc]; simp)
      rw [hc] at this
      dsimp only at this h
      rw [this, htab2] at h
      exact Or.inl h
    · rename_i w3 hc
      have := createEntity_not_ok (utcNow w1).2 id
        { event_type := a, date := b, description := c, raw_data := d,
          first_seen := (utcNow w1).1, notified := false } (by rw [hc]; simp)
      rw [hc] at this
      dsimp only at this h
      rw [this, htab2] at h
      exact Or.inl h

theorem createEntity_present (w : World) (id : String) (e v : EventEntity)
    (hl : lookupTable w.table id = some v) : (createEntity w id e).1 ≠ CreateOutcome.ok := by
  unfold createEntity
  rcases w with ⟨t, fs, ts, td⟩
  simp only at hl
  rcases fs with _ | ⟨f, r⟩
  · simp [hl]
  · cases f <;> simp [hl]

theorem save_dup (w : World) (id a b c d : String) (v : EventEntity)
    (hl : lookupTable w.table id = some v) :
    (save_event_record w id a b c d).1 = false ∧
      ((save_event_record w id a b c d).2).table = w.table := by
  unfold save_event_record
  split
  · rename_i w1 hn
    have htab1 : w1.table = w.table := by
      have := is_new_event_table w id
      rw [hn] at this
      exact this
    exact ⟨rfl, htab1⟩
  · rename_i w1 hn
    have htab1 : w1.table = w.table := by
      have := is_new_event_table w id
      rw [hn] at this
      exact this
    have htab2 : ((utcNow w1).2).table = w.table := by rw [utcNow_table, htab1]
    dsimp only
    split
    · rename_i w3 hc
      exact absurd (by rw [hc]) (createEntity_present (utcNow w1).2 id _ v (by rw [htab2]; exact hl))
    · rename_i w3 hc
      have := createEntity_not_ok (utcNow w1).2 id
        { event_type := a, date := b, description := c, raw_data := d,
          first_seen := (utcNow w1).1, notified := false } (by rw [hc]; simp)
      rw [hc] at this
      dsimp only at this
      exact ⟨rfl, by rw [this, htab2]⟩
    · rename_i w3 hc
      have := createEntity_not_ok (utcNow w1).2 id
        { event_type := a, date := b, description := c, raw_data := d,
          first_seen := (utcNow w1).1, notified := false } (by rw [hc]; simp)
      rw [hc] at this
      dsimp only at this
      exact ⟨rfl, by rw [this, htab2]⟩

theorem save_faults_nil (w : World) (id a b c d : String) (hf : w.faults = []) :
    ((save_event_record w id a b c d).2).faults = [] := by
  unfold save_event_record
  split
  · rename_i w1 hn
    have := is_new_event_faults_nil w id hf
    rw [hn] at this
    exact this
  · rename_i w1 hn
    have hf1 : w1.faults = [] := by
      have := is_new_event_faults_nil w id hf
      rw [hn] at this
      exact this
    have hf2 : ((utcNow w1).2).faults = [] := by rw [utcNow_faults]; exact hf1
    dsimp only
    split
    · rename_i w3 hc
      have hf3 : w3.faults = [] := by
        have := createEntity_nil_faults (utcNow w1).2 id
          { event_type := a, date := b, description := c, raw_data := d,
            first_seen := (utcNow w1).1, notified := false } hf2
        rw [hc] at this
        exact this
      split
      all_goals
        rename_i w4 hg
        have := getEntity_faults_nil w3 id hf3
        rw [hg] at this
        exact this
    · rename_i w3 hc
      have := createEntity_nil_faults (utcNow w1).2 id
        { event_type := a, date := b, description := c, raw_data := d,
          first_seen := (utcNow w1).1, notified := false } hf2
      rw [hc] at this
      exact this
    · rename_i w3 hc
      have := createEntity_nil_faults (utcNow w1).2 id
        { event_type := a, date := b, description := c, raw_data := d,
          first_seen := (utcNow w1).1, notified := false } hf2
      rw [hc] at this
      exact this

theorem is_new_event_nil_snd (w : World) (id : String) (hf : w.faults = []) :
    (is_new_event w id).2 = w := by
  unfold is_new_event
  split
  all_goals
    rename_i w1 hg
    have h2 := getEntity_nil_faults w id hf
    rw [hg] at h2
    exact h2

theorem is_new_event_nil_true_none (w : World) (id : String) (hf : w.faults = [])
    (h : (is_new_event w id).1 = true) : lookupTable w.table id = none := by
  cases hl : lookupTable w.table id with
  | none => rfl
  | some v =>
      rw [is_new_event_nil_skip w id v hf hl] at h
      simp at h

theorem createEntity_nil_ok (w : World) (id : String) (e : EventEntity) (hf : w.faults = [])
    (hl : lookupTable w.table id = none) :
    createEntity w id e = (CreateOutcome.ok, { w with table := w.table ++ [(id, e)] }) := by
  unfold createEntity
  rcases w with ⟨t, fs, ts, td⟩
  simp only at hf hl
  subst hf
  simp [hl]

theorem save_nil_insert (w : World) (id a b c d : String) (hf : w.faults = [])
    (hl : lookupTable w.table id = none) :
    (save_event_record w id a b c d).1 = true := by
  have hnew : is_new_event w id = (true, w) := by
    have h2 := is_new_event_nil_snd w id hf
    have h1 : (is_new_event w id).1 = true := by
      by_contra hb
      rcases is_new_event_false_found w id (by simpa using hb) with ⟨v, hv⟩
      rw [hl] at hv
      cases hv
    cases hp : is_new_event w id with
    | mk b w1 =>
        rw [hp] at h1 h2
        dsimp only at h1 h2
        rw [h1, h2]
  unfold save_event_record
  rw [hnew]
  dsimp only
  have ht2 : ((utcNow w).2).table = w.table := utcNow_table w
  have hf2 : ((utcNow w).2).faults = [] := by rw [utcNow_faults]; exact hf
  rw [createEntity_nil_ok (utcNow w).2 id _ hf2 (by rw [ht2]; exact hl)]
  dsimp only
  rw [getEntity_nil_found _ id
      { event_type := a, date := b, description := c, raw_data := d,
        first_seen := (utcNow w).1, notified := false }
      (by dsimp only; exact hf2)
      (by dsimp only; rw [lookupTable_append, ht2, hl]; simp [lookupTable])]

/-! ## `filter_new_events` helper lemmas -/

theorem filter_table_mono (evs : List RawRecord) (w : World) (ty k : String) (v : EventEntity)
    (h : lookupTable w.table k = some v) :
    lookupTable ((filter_new_events w evs ty).2).table k = some v := by
  induction evs generalizing w with
  | nil => exact h
  | cons e rest ih =>
      unfold filter_new_events
      dsimp only
      split
      · rename_i w1 hn
        have h1 : lookupTable w1.table k = some v := by
          have := is_new_event_table w (generate_event_id e ty)
          rw [hn] at this
          dsimp only at this
          rw [this]
          exact h
        split
        · rename_i w2 hs
          have h2 : lookupTable w2.table k = some v := by
            have := save_table_mono w1 (generate_event_id e ty) ty (e.date.getD w1.today)
              (e.description.getD "") (dumpsEvent e) k v h1
            rw [hs] at this
            exact this
          exact ih w2 h2
        · rename_i w2 hs
          have h2 : lookupTable w2.table k = some v := by
            have := save_table_mono w1 (generate_event_id e ty) ty (e.date.getD w1.today)
              (e.description.getD "") (dumpsEvent e) k v h1
            rw [hs] at this
            exact this
          exact ih w2 h2
      · rename_i w1 hn
        have h1 : lookupTable w1.table k = some v := by
          have := is_new_event_table w (generate_event_id e ty)
          rw [hn] at this
          dsimp only at this
          rw [this]
          exact h
        exact ih w1 h1

theorem filter_new_entries (evs : List RawRecord) (w : World) (ty k : String) (e : EventEntity)
    (h : lookupTable ((filter_new_events w evs ty).2).table k = some e) :
    lookupTable w.table k = some e ∨ e.notified = false := by
  induction evs generalizing w with
  | nil => exact Or.inl h
  | cons x rest ih =>
      unfold filter_new_events at h
      dsimp only at h
      split at h
      · rename_i w1 hn
        have htab1 : w1.table = w.table := by
          have := is_new_event_table w (generate_event_id x ty)
          rw [hn] at this
          exact this
        split at h
        · rename_i w2 hs
          rcases ih w2 h with h2 | h2
          · have := save_new_entries w1 (generate_event_id x ty) ty (x.date.getD w1.today)
              (x.description.getD "") (dumpsEvent x) k e (by rw [hs]; exact h2)
            rw [htab1] at this
            exact this
          · exact Or.inr h2
        · rename_i w2 hs
          rcases ih w2 h with h2 | h2
          · have := save_new_entries w1 (generate_event_id x ty) ty (x.date.getD w1.today)
              (x.description.getD "") (dumpsEvent x) k e (by rw [hs]; exact h2)
            rw [htab1] at this
            exact this
          · exact Or.inr h2
      · rename_i w1 hn
        have htab1 : w1.table = w.table := by
          have := is_new_event_table w (generate_event_id x ty)
          rw [hn] at this
          exact this
        rcases ih w1 h with h2 | h2
        · rw [htab1] at h2
          exact Or.inl h2
        · exact Or.inr h2

theorem filter_faults_nil (evs : List RawRecord) (w : World) (ty : String) (hf : w.faults = []) :
    ((filter_new_events w evs ty).2).faults = [] := by
  induction evs generalizing w with
  | nil => exact hf
  | cons x rest ih =>
      unfold filter_new_events
      dsimp only
      split
      · rename_i w1 hn
        have hf1 : w1.faults = [] := by
          have := is_new_event_faults_nil w (generate_event_id x ty) hf
          rw [hn] at this
          exact this
        split
        · rename_i w2 hs
          have hf2 : w2.faults = [] := by
            have := save_faults_nil w1 (generate_event_id x ty) ty (x.date.getD w1.today)
              (x.description.getD "") (dumpsEvent x) hf1
            rw [hs] at this
            exact this
          exact ih w2 hf2
        · rename_i w2 hs
          have hf2 : w2.faults = [] := by
            have := save_faults_nil w1 (generate_event_id x ty) ty (x.date.getD w1.today)
              (x.description.getD "") (dumpsEvent x) hf1
            rw [hs] at this
            exact this
          exact ih w2 hf2
      · rename_i w1 hn
        have hf1 : w1.faults = [] := by
          have := is_new_event_faults_nil w (generate_event_id x ty) hf
          rw [hn] at this
          exact this
        exact ih w1 hf1

theorem filter_mem_after (evs : List RawRecord) (w : World) (ty : String) (hf : w.faults = []) :
    ∀ x ∈ evs, ∃ v,
      lookupTable ((filter_new_events w evs ty).2).table (generate_event_id x ty) = some v := by
  induction evs generalizing w with
  | nil => intro x hx; cases hx
  | cons e rest ih =>
      intro x hx
      unfold filter_new_events
      dsimp only
      split
      · rename_i w1 hn
        have hw1 : w1 = w := by
          have := is_new_event_nil_snd w (generate_event_id e ty) hf
          rw [hn] at this
          exact this
        have hf1 : w1.faults = [] := by rw [hw1]; exact hf
        have hnone : lookupTable w1.table (generate_event_id e ty) = none := by
          rw [hw1]
          exact is_new_event_nil_true_none w (generate_event_id e ty) hf (by rw [hn])
        split
        · rename_i w2 hs
          have hspec := save_true_spec w1 (generate_event_id e ty) ty (e.date.getD w1.today)
            (e.description.getD "") (dumpsEvent e) (by rw [hs])
          rcases hspec.2 with ⟨ent, hent, htab⟩
          rw [hs] at htab
          dsimp only at htab
          have hf2 : w2.faults = [] := by
            have := save_faults_nil w1 (generate_event_id e ty) ty (e.date.getD w1.today)
              (e.description.getD "") (dumpsEvent e) hf1
            rw [hs] at this
            exact this
          rcases List.mem_cons.mp hx with hx1 | hx1
          · subst hx1
            have hpres : lookupTable w2.table (generate_event_id x ty) = some ent := by
              rw [htab, lookupTable_append, hnone]
              simp [lookupTable]
            exact ⟨ent, filter_table_mono rest w2 ty _ ent hpres⟩
          · exact ih w2 hf2 x hx1
        · rename_i w2 hs
          have htrue := save_nil_insert w1 (generate_event_id e ty) ty (e.date.getD w1.today)
            (e.description.getD "") (dumpsEvent e) hf1 hnone
          rw [hs] at htrue
          cases htrue
      · rename_i w1 hn
        have hw1 : w1 = w := by
          have := is_new_event_nil_snd w (generate_event_id e ty) hf
          rw [hn] at this
          exact this
        have hf1 : w1.faults = [] := by rw [hw1]; exact hf
        rcases is_new_event_false_found w (generate_event_id e ty) (by rw [hn]) with ⟨v, hv⟩
        have hv1 : lookupTable w1.table (generate_event_id e ty) = some v := by
          rw [hw1]
          exact hv
        rcases List.mem_cons.mp hx with hx1 | hx1
        · subst hx1
          exact ⟨v, filter_table_mono rest w1 ty _ v hv1⟩
        · exact ih w1 hf1 x hx1

theorem filter_all_present (evs : List RawRecord) (w : World) (ty : String) (hf : w.faults = [])
    (hall : ∀ x ∈ evs, ∃ v, lookupTable w.table (generate_event_id x ty) = some v) :
    filter_new_events w evs ty = ([], w) := by
  induction evs generalizing w with
  | nil => rfl
  | cons e rest ih =>
      rcases hall e (List.mem_cons_self e rest) with ⟨v, hv⟩
      unfold filter_new_events
      dsimp only
      rw [is_new_event_nil_skip w (generate_event_id e ty) v hf hv]
      dsimp only
      exact ih w hf (fun x hx => hall x (List.mem_cons_of_mem e hx))

theorem filter_output_persisted (evs : List RawRecord) (w : World) (ty : String) :
    ∀ x ∈ (filter_new_events w evs ty).1, ∃ v,
      lookupTable ((filter_new_events w evs ty).2).table (generate_event_id x ty) = some v := by
  induction evs generalizing w with
  | nil => intro x hx; cases hx
  | cons e rest ih =>
      intro x hx
      unfold filter_new_events at hx ⊢
      dsimp only at hx ⊢
      split at hx
      · rename_i w1 hn
        split at hx
        · rename_i w2 hs
          have hspec := save_true_spec w1 (generate_event_id e ty) ty (e.date.getD w1.today)
            (e.description.getD "") (dumpsEvent e) (by rw [hs])
          rcases hspec.2 with ⟨ent, hent, htab⟩
          rw [hs] at htab
          dsimp only at htab
          rcases List.mem_cons.mp hx with hx1 | hx1
          · subst hx1
            have hpres : lookupTable w2.table (generate_event_id x ty) = some ent := by
              rw [htab, lookupTable_append, hspec.1]
              simp [lookupTable]
            exact ⟨ent, filter_table_mono rest w2 ty _ ent hpres⟩
          · exact ih w2 x hx1
        · rename_i w2 hs
          exact ih w2 x hx
      · rename_i w1 hn
        exact ih w1 x hx

/-! ## `mark_events_notified` and notifier helper lemmas -/

theorem mark_go_calls (na : List RawRecord) (w : World) (l : List RawRecord) :
    (mark_events_notified_go na w l).2 = l.map (fun e =>
      ExtCall.markNotified
        (generate_event_id e (if e ∈ na then "absence" else "behavior_alert"))) := by
  induction l generalizing w with
  | nil => rfl
  | cons e rest ih =>
      unfold mark_events_notified_go
      dsimp only
      rw [ih]
      simp

theorem send_notification_false (env : Env) (a b : List RawRecord)
    (h : env.recipients = [] ∨ env.alertEmailResult = false) :
    (send_notification env a b).1 = false := by
  unfold send_notification
  rcases h with h | h
  · rw [if_pos h]
  · split
    · rfl
    · exact h

theorem send_notification_no_mark (env : Env) (a b : List RawRecord) (id : String) :
    ExtCall.markNotified id ∉ (send_notification env a b).2 := by
  unfold send_notification
  split
  · simp
  · simp

/-! ## Concrete records, worlds and environments used as test inputs -/

/-- An absence record as scraped (date in `DD-MM-YYYY` form). -/
def exAbs : RawRecord :=
  { date := some "19-11-2025", subject := some "Matematica",
    absence_type := some "Injustificada", professor := none,
    description := some "Falta as 08:30", extra := [] }

/-- The same underlying absence re-scraped later: date already in ISO form,
a different embedded time-of-day in `description`, and an incidental extra
field. -/
def exAbsIso : RawRecord :=
  { date := some "2025-11-19", subject := some "Matematica",
    absence_type := some "Injustificada", professor := none,
    description := some "Falta as 10:15", extra := [("turma", "9A")] }

/-- An absence differing from `exAbs` only in `absence_type`. -/
def exAbsOther : RawRecord :=
  { date := some "19-11-2025", subject := some "Matematica",
    absence_type := some "Justificada", professor := none,
    description := some "Falta as 08:30", extra := [] }

/-- Delimiter-injection pair: `subject = "a|b", absence_type = "c"`. -/
def pipeR1 : RawRecord :=
  { date := none, subject := some "a|b", absence_type := some "c",
    professor := none, description := none, extra := [] }

/-- Delimiter-injection pair: `subject = "a", absence_type = "b|c"`. -/
def pipeR2 : RawRecord :=
  { date := none, subject := some "a", absence_type := some "b|c",
    professor := none, description := none, extra := [] }

/-- A reliable, initially empty store. -/
def wEmpty : World :=
  { table := [], faults := [], times := ["T0", "T1", "T2", "T3"], today := "2025-11-20" }

/-- Store where the third client call (the verification read inside a
direct `save_event_record`) raises a storage error. -/
def wVerifyFault : World :=
  { table := [], faults := [false, false, true], times := ["T0"], today := "2025-11-20" }

/-- Store where the fourth client call (the verification read inside the
`save_event_record` issued by `_filter_new_events`) raises a storage error. -/
def wFilterVerifyFault : World :=
  { table := [], faults := [false, false, false, true], times := ["T0"], today := "2025-11-20" }

/-- Store where the first two client calls (both `get_entity` existence
checks for a record) raise storage errors. -/
def wReadFault : World :=
  { table := [], faults := [true, true, false, false], times := ["T0"], today := "2025-11-20" }

/-- A run whose scrape puts the identical record in both category lists. -/
def envShared : Env :=
  { scrape := { success := true, error := none, absences := [exAbs], behavior_alerts := [exAbs] },
    recipients := ["parent"], alertEmailResult := true, failureEmailResult := true }

/-- A run with one scraped absence and a working notifier. -/
def envOneAbs : Env :=
  { scrape := { success := true, error := none, absences := [exAbs], behavior_alerts := [] },
    recipients := ["parent"], alertEmailResult := true, failureEmailResult := true }

/-- A run with one scraped absence whose alert-email send reports failure. -/
def envNotifyFail : Env :=
  { scrape := { success := true, error := none, absences := [exAbs], behavior_alerts := [] },
    recipients := ["parent"], alertEmailResult := false, failureEmailResult := true }

/-- A run whose scrape succeeds with no records at all. -/
def envNoNews : Env :=
  { scrape := { success := true, error := none, absences := [], behavior_alerts := [] },
    recipients := ["parent"], alertEmailResult := true, failureEmailResult := true }

/-! ## Date-normalization helper lemmas -/

theorem digit_ne_dash (c : Char) (h : c.isDigit = true) : ¬(c = '-') := by
  intro e
  rw [e] at h
  exact absurd h (by decide)

theorem splitDash_pattern (d1 d2 m1 m2 y1 y2 y3 y4 : Char)
    (n1 : ¬(d1 = '-')) (n2 : ¬(d2 = '-')) (n3 : ¬(m1 = '-')) (n4 : ¬(m2 = '-'))
    (n5 : ¬(y1 = '-')) (n6 : ¬(y2 = '-')) (n7 : ¬(y3 = '-')) (n8 : ¬(y4 = '-')) :
    splitDash [d1, d2, '-', m1, m2, '-', y1, y2, y3, y4] =
      [[d1, d2], [m1, m2], [y1, y2, y3, y4]] := by
  simp [splitDash, n1, n2, n3, n4, n5, n6, n7, n8]

theorem normalize_date_pattern (d1 d2 m1 m2 y1 y2 y3 y4 : Char)
    (n1 : ¬(d1 = '-')) (n2 : ¬(d2 = '-')) (n3 : ¬(m1 = '-')) (n4 : ¬(m2 = '-'))
    (n5 : ¬(y1 = '-')) (n6 : ¬(y2 = '-')) (n7 : ¬(y3 = '-')) (n8 : ¬(y4 = '-')) :
    normalize_date (String.mk [d1, d2, '-', m1, m2, '-', y1, y2, y3, y4]) =
      String.mk [y1, y2, y3, y4, '-', m1, m2, '-', d1, d2] := by
  unfold normalize_date
  rw [if_neg, if_pos]
  · rw [show (String.mk [d1, d2, '-', m1, m2, '-', y1, y2, y3, y4]).data =
        [d1, d2, '-', m1, m2, '-', y1, y2, y3, y4] from rfl]
    rw [splitDash_pattern d1 d2 m1 m2 y1 y2 y3 y4 n1 n2 n3 n4 n5 n6 n7 n8]
    rw [if_pos]
    · simp
    · constructor
      · rfl
      · simp
  · rw [show (String.mk [d1, d2, '-', m1, m2, '-', y1, y2, y3, y4]).data =
        [d1, d2, '-', m1, m2, '-', y1, y2, y3, y4] from rfl]
    simp
  · rintro (he | hu)
    · have := congrArg String.data he
      simp at this
    · have := congrArg String.data hu
      simp at this

theorem specRewrite_pattern (d1 d2 m1 m2 y1 y2 y3 y4 : Char)
    (n1 : ¬(d1 = '-')) (n2 : ¬(d2 = '-')) (n3 : ¬(m1 = '-')) (n4 : ¬(m2 = '-'))
    (n5 : ¬(y1 = '-')) (n6 : ¬(y2 = '-')) (n7 : ¬(y3 = '-')) (n8 : ¬(y4 = '-')) :
    specRewrite (String.mk [d1, d2, '-', m1, m2, '-', y1, y2, y3, y4]) =
      String.mk [y1, y2, y3, y4, '-', m1, m2, '-', d1, d2] := by
  unfold specRewrite
  rw [show (String.mk [d1, d2, '-', m1, m2, '-', y1, y2, y3, y4]).data =
      [d1, d2, '-', m1, m2, '-', y1, y2, y3, y4] from rfl]
  rw [splitDash_pattern d1 d2 m1 m2 y1 y2 y3 y4 n1 n2 n3 n4 n5 n6 n7 n8]
  simp

theorem spec_rewrite_direction (s : String) (h : specMatchesDDMMYYYY s = true) :
    normalize_date s = specRewrite s := by
  cases s with
  | mk data =>
      unfold specMatchesDDMMYYYY at h
      split at h
      · rename_i d1 d2 k1 m1 m2 k2 y1 y2 y3 y4 heq
        simp only [Bool.and_eq_true, beq_iff_eq] at h
        obtain ⟨⟨⟨⟨⟨⟨⟨⟨⟨hd1, hd2⟩, hk1⟩, hm1⟩, hm2⟩, hk2⟩, hy1⟩, hy2⟩, hy3⟩, hy4⟩ := h
        subst hk1
        subst hk2
        have hdq : data = [d1, d2, '-', m1, m2, '-', y1, y2, y3, y4] := heq
        rw [hdq]
        rw [normalize_date_pattern d1 d2 m1 m2 y1 y2 y3 y4
            (digit_ne_dash d1 hd1) (digit_ne_dash d2 hd2) (digit_ne_dash m1 hm1)
            (digit_ne_dash m2 hm2) (digit_ne_dash y1 hy1) (digit_ne_dash y2 hy2)
            (digit_ne_dash y3 hy3) (digit_ne_dash y4 hy4)]
        rw [specRewrite_pattern d1 d2 m1 m2 y1 y2 y3 y4
            (digit_ne_dash d1 hd1) (digit_ne_dash d2 hd2) (digit_ne_dash m1 hm1)
            (digit_ne_dash m2 hm2) (digit_ne_dash y1 hy1) (digit_ne_dash y2 hy2)
            (digit_ne_dash y3 hy3) (digit_ne_dash y4 hy4)]
      · cases h

/-! ## Claim theorems

Each claim of the specification is settled by exactly one theorem below
(plus, where required, a witness instantiating its hypotheses at concrete
inputs, or a counterexample refuting the claim as literally stated). -/

/-- C1 (identity stability): for every two raw records and a common
category, if the records agree on the date field after normalization and
on that category's discriminator fields (subject and absence type for
absences, professor and description for behavior alerts), then
`_generate_event_id` yields the same identity, whatever the other fields
contain. -/
theorem identity_stability (r1 r2 : RawRecord) (ty : String)
    (hdate : normalize_date (r1.date.getD "unknown") = normalize_date (r2.date.getD "unknown"))
    (hdisc : (ty = "absence" ∧ r1.subject.getD "" = r2.subject.getD "" ∧
        r1.absence_type.getD "" = r2.absence_type.getD "") ∨
      (ty = "behavior_alert" ∧ r1.professor.getD "" = r2.professor.getD "" ∧
        r1.description.getD "" = r2.description.getD "")) :
    generate_event_id r1 ty = generate_event_id r2 ty := by
  suffices h : id_string r1 ty = id_string r2 ty by
    unfold generate_event_id
    rw [h]
  unfold id_string
  rcases hdisc with ⟨hty, h1, h2⟩ | ⟨hty, h1, h2⟩
  · subst hty
    simp [hdate, h1, h2]
  · subst hty
    simp [hdate, h1, h2]

/-- Witness for C1: the same absence scraped twice — once with the date as
`19-11-2025` and an `08:30` time inside the description, once with the
date already normalized and a different time — receives the same
identity. -/
theorem identity_stability_witness :
    (normalize_date (exAbs.date.getD "unknown") = normalize_date (exAbsIso.date.getD "unknown") ∧
      exAbs.subject.getD "" = exAbsIso.subject.getD "" ∧
      exAbs.absence_type.getD "" = exAbsIso.absence_type.getD "" ∧
      exAbs.description ≠ exAbsIso.description) ∧
    generate_event_id exAbs "absence" = generate_event_id exAbsIso "absence" :=
  ⟨by decide, identity_stability exAbs exAbsIso "absence" (by decide)
    (Or.inl ⟨rfl, by decide, by decide⟩)⟩

/-- C2 counterexample: the claim states that `_normalize_date` rewrites a
string if and only if it matches `DD-MM-YYYY` and that any other string is
returned unchanged; but `"1-2-3"` does not match the pattern and is still
rewritten (to `"3-2-1"`), so the only-if direction is false. -/
theorem normalize_date_spec_counterexample :
    ¬ (∀ s : String, specMatchesDDMMYYYY s = false → normalize_date s = s) := by
  intro h
  have h2 := h "1-2-3" (by decide)
  exact absurd h2 (by decide)

/-- C2 (corrected): every string matching the spec's `DD-MM-YYYY` pattern
is rewritten to `YYYY-MM-DD`, and the spec's round-trip examples hold
(`19-11-2025 ↦ 2025-11-19`, `2025-11-19` fixed, `unknown` fixed); however
the implemented test is broader than the claimed pattern — any string
splitting on `'-'` into three parts whose first part has at most two
characters is rewritten (e.g. `"1-2-3" ↦ "3-2-1"`), the empty string maps
to `"unknown"` rather than passing through, and idempotence fails in
general (`"1-2-3"` again). -/
theorem normalize_date_amended :
    (∀ s : String, specMatchesDDMMYYYY s = true → normalize_date s = specRewrite s) ∧
    normalize_date "19-11-2025" = "2025-11-19" ∧
    normalize_date "2025-11-19" = "2025-11-19" ∧
    normalize_date (normalize_date "19-11-2025") = normalize_date "19-11-2025" ∧
    normalize_date "unknown" = "unknown" ∧
    normalize_date "" = "unknown" ∧
    normalize_date "1-2-3" = "3-2-1" ∧
    normalize_date (normalize_date "1-2-3") ≠ normalize_date "1-2-3" :=
  ⟨spec_rewrite_direction, by decide, by decide, by decide, by decide, by decide, by decide,
    by decide⟩

/-- Witness for C2 (amended): the universally quantified first conjunct
instantiated at the concrete matching date `19-11-2025`. -/
theorem normalize_date_amended_witness :
    specMatchesDDMMYYYY "19-11-2025" = true ∧
      normalize_date "19-11-2025" = specRewrite "19-11-2025" :=
  ⟨by decide, normalize_date_amended.1 "19-11-2025" (by decide)⟩

/-- C3 (at-most-once insert): if a first `save_event_record` for an
identity returned `true`, a second call with the same identity — whatever
its other arguments and whatever faults the store then exhibits — returns
`false`, leaves the table byte-for-byte unchanged (so every field of the
stored record, including `first_seen`, is untouched), and the table holds
exactly one record for that identity. -/
theorem save_event_record_at_most_once (w : World) (id a1 b1 c1 d1 a2 b2 c2 d2 : String)
    (h : (save_event_record w id a1 b1 c1 d1).1 = true) :
    (save_event_record ((save_event_record w id a1 b1 c1 d1).2) id a2 b2 c2 d2).1 = false ∧
    ((save_event_record ((save_event_record w id a1 b1 c1 d1).2) id a2 b2 c2 d2).2).table =
      ((save_event_record w id a1 b1 c1 d1).2).table ∧
    countId ((save_event_record ((save_event_record w id a1 b1 c1 d1).2) id a2 b2 c2 d2).2).table
      id = 1 := by
  have hspec := save_true_spec w id a1 b1 c1 d1 h
  rcases hspec.2 with ⟨ent, hent, htab⟩
  have hlook : lookupTable ((save_event_record w id a1 b1 c1 d1).2).table id = some ent := by
    rw [htab, lookupTable_append, hspec.1]
    simp [lookupTable]
  have hdup := save_dup ((save_event_record w id a1 b1 c1 d1).2) id a2 b2 c2 d2 ent hlook
  refine ⟨hdup.1, hdup.2, ?_⟩
  rw [hdup.2, htab, countId_append, countId_eq_zero w.table id hspec.1]
  simp [countId]

/-- Witness for C3: on an empty reliable store the first save of identity
`id1` succeeds, and the theorem's conclusions hold for a second save with
different arguments. -/
theorem save_event_record_at_most_once_witness :
    (save_event_record wEmpty "id1" "absence" "2025-11-19" "d" "raw").1 = true ∧
    ((save_event_record ((save_event_record wEmpty "id1" "absence" "2025-11-19" "d" "raw").2)
        "id1" "behavior_alert" "2025-11-20" "e" "raw2").1 = false ∧
      ((save_event_record ((save_event_record wEmpty "id1" "absence" "2025-11-19" "d" "raw").2)
          "id1" "behavior_alert" "2025-11-20" "e" "raw2").2).table =
        ((save_event_record wEmpty "id1" "absence" "2025-11-19" "d" "raw").2).table ∧
      countId ((save_event_record ((save_event_record wEmpty "id1" "absence" "2025-11-19" "d"
          "raw").2) "id1" "behavior_alert" "2025-11-20" "e" "raw2").2).table "id1" = 1) :=
  ⟨by decide, save_event_record_at_most_once wEmpty "id1" "absence" "2025-11-19" "d" "raw"
    "behavior_alert" "2025-11-20" "e" "raw2" (by decide)⟩

/-- C5 (novelty filter convergence): for every category and batch, running
`_filter_new_events` a second time on the identical batch against the
store state left by the first run (reliable store, no intervening
mutations) returns the empty list — every record is by then a duplicate. -/
theorem filter_new_events_convergence (w : World) (evs : List RawRecord) (ty : String)
    (hf : w.faults = []) :
    (filter_new_events ((filter_new_events w evs ty).2) evs ty).1 = [] := by
  rw [filter_all_present evs ((filter_new_events w evs ty).2) ty
    (filter_faults_nil evs w ty hf) (filter_mem_after evs w ty hf)]

/-- Witness for C5: one concrete absence batch against the empty reliable
store; the first run inserts it, the second run filters everything out. -/
theorem filter_new_events_convergence_witness :
    wEmpty.faults = [] ∧
    (filter_new_events wEmpty [exAbs] "absence").1 = [exAbs] ∧
    (filter_new_events ((filter_new_events wEmpty [exAbs] "absence").2) [exAbs] "absence").1
      = [] :=
  ⟨rfl, by decide, filter_new_events_convergence wEmpty [exAbs] "absence" rfl⟩

/-- C9 (no-op on empty novelty): whenever the fetch succeeds and both
filtered lists are empty, `check_alerts` reports `success = true` and
`email_sent = false`, and the Notifier's alert-email operation is never
invoked. -/
theorem noop_on_empty_novelty (env : Env) (w : World) (ts : String)
    (hs : env.scrape.success = true)
    (ha : (filter_new_events w env.scrape.absences "absence").1 = [])
    (hb : (filter_new_events ((filter_new_events w env.scrape.absences "absence").2)
        env.scrape.behavior_alerts "behavior_alert").1 = []) :
    (check_alerts env w ts).1.success = true ∧
    (check_alerts env w ts).1.email_sent = false ∧
    ∀ a b, ExtCall.alertEmail a b ∉ (check_alerts env w ts).2.2 := by
  unfold check_alerts
  rw [if_pos hs]
  dsimp only
  rw [if_neg (by rw [ha, hb]; simp)]
  exact ⟨rfl, rfl, by simp⟩

/-- Witness for C9: a successful scrape that returns no records at all. -/
theorem noop_on_empty_novelty_witness :
    (envNoNews.scrape.success = true ∧
      (filter_new_events wEmpty envNoNews.scrape.absences "absence").1 = [] ∧
      (filter_new_events ((filter_new_events wEmpty envNoNews.scrape.absences "absence").2)
        envNoNews.scrape.behavior_alerts "behavior_alert").1 = []) ∧
    (check_alerts envNoNews wEmpty "ts").1.success = true ∧
    (check_alerts envNoNews wEmpty "ts").1.email_sent = false ∧
    ∀ a b, ExtCall.alertEmail a b ∉ (check_alerts envNoNews wEmpty "ts").2.2 :=
  ⟨⟨rfl, rfl, rfl⟩, noop_on_empty_novelty envNoNews wEmpty "ts" rfl rfl rfl⟩

/-- C6 (notification-failure semantics): in a run whose fetch and filtering
succeed with at least one non-empty filtered list but whose alert-email
send reports failure (the notifier returned `False`, raised, or no
recipients were configured), the result still has `success = true` with
`email_sent = false`, `mark_event_notified` is never invoked, and every
record the run inserted still has `notified = false`. -/
theorem notify_failure_semantics (env : Env) (w : World) (ts : String)
    (hs : env.scrape.success = true)
    (hne : (filter_new_events w env.scrape.absences "absence").1 ≠ [] ∨
      (filter_new_events ((filter_new_events w env.scrape.absences "absence").2)
        env.scrape.behavior_alerts "behavior_alert").1 ≠ [])
    (hsend : env.recipients = [] ∨ env.alertEmailResult = false) :
    (check_alerts env w ts).1.success = true ∧
    (check_alerts env w ts).1.email_sent = false ∧
    (∀ id, ExtCall.markNotified id ∉ (check_alerts env w ts).2.2) ∧
    (∀ k e, lookupTable ((check_alerts env w ts).2.1).table k = some e →
      lookupTable w.table k = some e ∨ e.notified = false) := by
  unfold check_alerts
  rw [if_pos hs]
  dsimp only
  rw [if_pos hne]
  rw [if_neg (by rw [send_notification_false env _ _ hsend]; simp)]
  refine ⟨rfl, rfl, ?_, ?_⟩
  · intro id
    exact send_notification_no_mark env _ _ id
  · intro k e he
    dsimp only at he
    rcases filter_new_entries env.scrape.behavior_alerts
        ((filter_new_events w env.scrape.absences "absence").2) "behavior_alert" k e he with
      h1 | h1
    · exact filter_new_entries env.scrape.absences w "absence" k e h1
    · exact Or.inr h1

/-- Witness for C6: one new absence on an empty reliable store while the
notifier reports failure. -/
theorem notify_failure_semantics_witness :
    (envNotifyFail.scrape.success = true ∧
      (filter_new_events wEmpty envNotifyFail.scrape.absences "absence").1 ≠ [] ∧
      envNotifyFail.alertEmailResult = false) ∧
    (check_alerts envNotifyFail wEmpty "ts").1.success = true ∧
    (check_alerts envNotifyFail wEmpty "ts").1.email_sent = false ∧
    (∀ id, ExtCall.markNotified id ∉ (check_alerts envNotifyFail wEmpty "ts").2.2) ∧
    (∀ k e, lookupTable ((check_alerts envNotifyFail wEmpty "ts").2.1).table k = some e →
      lookupTable wEmpty.table k = some e ∨ e.notified = false) :=
  ⟨⟨rfl, by decide, rfl⟩,
    (notify_failure_semantics envNotifyFail wEmpty "ts" rfl (Or.inl (by decide))
      (Or.inr rfl)).1,
    (notify_failure_semantics envNotifyFail wEmpty "ts" rfl (Or.inl (by decide))
      (Or.inr rfl)).2.1,
    (notify_failure_semantics envNotifyFail wEmpty "ts" rfl (Or.inl (by decide))
      (Or.inr rfl)).2.2.1,
    (notify_failure_semantics envNotifyFail wEmpty "ts" rfl (Or.inl (by decide))
      (Or.inr rfl)).2.2.2⟩

set_option maxHeartbeats 4000000 in
/-- C7 counterexample: when the identical record passes both filters (here
`exAbs` is scraped as an absence and as a behavior alert), the
`event in self.new_absences` test in `_mark_events_notified` classifies
BOTH occurrences as absences: the absence identity is marked twice, the
behavior-alert identity is never marked (its stored record keeps
`notified = false`) although the alert email reported success — refuting
the claim that every event of the filtered behavior-alert list is marked
with category `behavior_alert`. -/
theorem mark_category_counterexample :
    (filter_new_events wEmpty envShared.scrape.absences "absence").1 = [exAbs] ∧
    (filter_new_events ((filter_new_events wEmpty envShared.scrape.absences "absence").2)
      envShared.scrape.behavior_alerts "behavior_alert").1 = [exAbs] ∧
    (check_alerts envShared wEmpty "ts").1.email_sent = true ∧
    (check_alerts envShared wEmpty "ts").2.2 =
      [ExtCall.alertEmail [exAbs] [exAbs],
       ExtCall.markNotified (generate_event_id exAbs "absence"),
       ExtCall.markNotified (generate_event_id exAbs "absence")] ∧
    ExtCall.markNotified (generate_event_id exAbs "behavior_alert") ∉
      (check_alerts envShared wEmpty "ts").2.2 ∧
    (lookupTable ((check_alerts envShared wEmpty "ts").2.1).table
      (generate_event_id exAbs "behavior_alert")).map EventEntity.notified = some false :=
  ⟨by decide, by decide, by decide, by decide, by decide, by decide⟩

/-- C7 (corrected): when the alert-email send reports success,
`mark_event_notified` is invoked for every event of both filtered lists;
the identity is re-derived with category `absence` exactly when the event
occurs in the filtered absence list (Python's `in` test) and with
`behavior_alert` otherwise.  Hence, provided no record of the filtered
behavior-alert list also occurs verbatim in the filtered absence list,
every event is marked under its own category, in list order. -/
theorem mark_notified_coverage (env : Env) (w : World) (ts : String)
    (hs : env.scrape.success = true)
    (hrec : ¬(env.recipients = [])) (hres : env.alertEmailResult = true)
    (hne : (filter_new_events w env.scrape.absences "absence").1 ≠ [] ∨
      (filter_new_events ((filter_new_events w env.scrape.absences "absence").2)
        env.scrape.behavior_alerts "behavior_alert").1 ≠ [])
    (hdisj : ∀ e ∈ (filter_new_events ((filter_new_events w env.scrape.absences "absence").2)
        env.scrape.behavior_alerts "behavior_alert").1,
      e ∉ (filter_new_events w env.scrape.absences "absence").1) :
    (check_alerts env w ts).2.2 =
      ExtCall.alertEmail (filter_new_events w env.scrape.absences "absence").1
          ((filter_new_events ((filter_new_events w env.scrape.absences "absence").2)
            env.scrape.behavior_alerts "behavior_alert").1) ::
        ((filter_new_events w env.scrape.absences "absence").1.map
            (fun e => ExtCall.markNotified (generate_event_id e "absence")) ++
          ((filter_new_events ((filter_new_events w env.scrape.absences "absence").2)
              env.scrape.behavior_alerts "behavior_alert").1).map
            (fun e => ExtCall.markNotified (generate_event_id e "behavior_alert"))) := by
  unfold check_alerts
  rw [if_pos hs]
  dsimp only
  rw [if_pos hne]
  have hsend : send_notification env (filter_new_events w env.scrape.absences "absence").1
      ((filter_new_events ((filter_new_events w env.scrape.absences "absence").2)
        env.scrape.behavior_alerts "behavior_alert").1) =
      (true, [ExtCall.alertEmail (filter_new_events w env.scrape.absences "absence").1
        ((filter_new_events ((filter_new_events w env.scrape.absences "absence").2)
          env.scrape.behavior_alerts "behavior_alert").1)]) := by
    unfold send_notification
    rw [if_neg hrec, hres]
  rw [hsend]
  dsimp only
  rw [if_pos rfl]
  dsimp only
  unfold mark_events_notified
  rw [mark_go_calls]
  rw [List.map_append]
  have hm1 : ((filter_new_events w env.scrape.absences "absence").1).map
      (fun e => ExtCall.markNotified (generate_event_id e
        (if e ∈ (filter_new_events w env.scrape.absences "absence").1 then "absence"
         else "behavior_alert"))) =
      ((filter_new_events w env.scrape.absences "absence").1).map
        (fun e => ExtCall.markNotified (generate_event_id e "absence")) := by
    apply List.map_congr_left
    intro e he
    rw [if_pos he]
  have hm2 : ((filter_new_events ((filter_new_events w env.scrape.absences "absence").2)
      env.scrape.behavior_alerts "behavior_alert").1).map
      (fun e => ExtCall.markNotified (generate_event_id e
        (if e ∈ (filter_new_events w env.scrape.absences "absence").1 then "absence"
         else "behavior_alert"))) =
      ((filter_new_events ((filter_new_events w env.scrape.absences "absence").2)
        env.scrape.behavior_alerts "behavior_alert").1).map
        (fun e => ExtCall.markNotified (generate_event_id e "behavior_alert")) := by
    apply List.map_congr_left
    intro e he
    rw [if_neg (hdisj e he)]
  rw [hm1, hm2, List.singleton_append]

set_option maxHeartbeats 4000000 in
/-- Witness for C7 (amended): one absence and an empty behavior-alert list;
the trace is the alert email followed by one mark per event under its own
category. -/
theorem mark_notified_coverage_witness :
    (envOneAbs.scrape.success = true ∧ ¬(envOneAbs.recipients = []) ∧
      envOneAbs.alertEmailResult = true ∧
      (filter_new_events wEmpty envOneAbs.scrape.absences "absence").1 ≠ []) ∧
    (check_alerts envOneAbs wEmpty "ts").2.2 =
      ExtCall.alertEmail (filter_new_events wEmpty envOneAbs.scrape.absences "absence").1
          ((filter_new_events ((filter_new_events wEmpty envOneAbs.scrape.absences "absence").2)
            envOneAbs.scrape.behavior_alerts "behavior_alert").1) ::
        ((filter_new_events wEmpty envOneAbs.scrape.absences "absence").1.map
            (fun e => ExtCall.markNotified (generate_event_id e "absence")) ++
          ((filter_new_events ((filter_new_events wEmpty envOneAbs.scrape.absences "absence").2)
              envOneAbs.scrape.behavior_alerts "behavior_alert").1).map
            (fun e => ExtCall.markNotified (generate_event_id e "behavior_alert"))) :=
  ⟨⟨rfl, by decide, rfl, by decide⟩,
    mark_notified_coverage envOneAbs wEmpty "ts" rfl (by decide) rfl
      (Or.inl (by decide)) (by intro e he; cases he)⟩

/-- C4 counterexample: a storage I/O error during the Event Store exists
check does NOT propagate and does NOT fail the run.  On `wReadFault` the
very first `get_entity` raises a storage error (first conjunct), yet
`is_new_event` swallows it and reports the record as new, and the whole
orchestrator run ends with `success = true`, no recorded error, and the
alert email actually sent — refuting the claim that the error surfaces as
a distinct StorageError, that the run is treated as failed, and that no
alert notification goes out. -/
theorem storage_fault_not_propagated :
    (getEntity wReadFault (generate_event_id exAbs "absence")).1 = GetOutcome.errStorage ∧
    (is_new_event wReadFault (generate_event_id exAbs "absence")).1 = true ∧
    (check_alerts envOneAbs wReadFault "ts").1.success = true ∧
    (check_alerts envOneAbs wReadFault "ts").1.error = none ∧
    (check_alerts envOneAbs wReadFault "ts").1.email_sent = true ∧
    ExtCall.alertEmail [exAbs] [] ∈ (check_alerts envOneAbs wReadFault "ts").2.2 :=
  ⟨rfl, rfl, by decide, by decide, by decide, by decide⟩

/-- C4 (corrected): storage I/O failures of the exists check or insert are
caught inside `is_new_event` / `save_event_record` and never propagate (no
distinct StorageError exists; a failed read is treated as "new" and the
run continues).  What does hold is that the filter never fails open in its
OUTPUT: under every fault schedule, every record `_filter_new_events`
emits — i.e. every record that can reach the Notifier — was verifiably
persisted in the Event Store. -/
theorem filter_output_always_persisted (evs : List RawRecord) (w : World) (ty : String) :
    ∀ x ∈ (filter_new_events w evs ty).1, ∃ v,
      lookupTable ((filter_new_events w evs ty).2).table (generate_event_id x ty) = some v :=
  filter_output_persisted evs w ty

/-- Witness for C4 (amended): the concrete absence emitted by a filter run
over the empty reliable store is found in the resulting table. -/
theorem filter_output_always_persisted_witness :
    exAbs ∈ (filter_new_events wEmpty [exAbs] "absence").1 ∧
    ∃ v, lookupTable ((filter_new_events wEmpty [exAbs] "absence").2).table
      (generate_event_id exAbs "absence") = some v :=
  ⟨by decide, filter_output_always_persisted [exAbs] wEmpty "absence" exAbs (by decide)⟩

/-- C8 counterexample: the claim asserts both that two absence records
agreeing on date and subject but differing in absence type get different
identities, and that the `|`-delimited concatenation keeps positions
stable so that distinct discriminator tuples yield distinct pre-hash
strings and distinct identities.  The delimiter is not escaped, so the
distinct tuples `(subject "a|b", type "c")` and `(subject "a", type
"b|c")` produce the SAME pre-hash string `absence|unknown|a|b|c` and
therefore the same identity, refuting the conjunction. -/
theorem identity_discrimination_counterexample :
    ¬ ((∀ r1 r2 : RawRecord,
          r1.date = r2.date →
          r1.subject.getD "" = r2.subject.getD "" →
          ¬(r1.absence_type.getD "" = r2.absence_type.getD "") →
          ¬(generate_event_id r1 "absence" = generate_event_id r2 "absence")) ∧
        (∀ r1 r2 : RawRecord,
          r1.date = r2.date →
          ¬((r1.subject.getD "", r1.absence_type.getD "") =
            (r2.subject.getD "", r2.absence_type.getD "")) →
          ¬(id_string r1 "absence" = id_string r2 "absence"))) := by
  rintro ⟨-, hB⟩
  exact hB pipeR1 pipeR2 rfl (by decide) (by decide)

/-- Cancellation of a common left factor of a string concatenation. -/
theorem string_append_cancel_left (a b c : String) (h : a ++ b = a ++ c) : b = c := by
  have h2 := congrArg String.data h
  simp only [String.data_append] at h2
  have h3 := List.append_cancel_left h2
  cases b with
  | mk db =>
      cases c with
      | mk dc =>
          simp only at h3
          rw [h3]

/-- C8 (corrected): for absence records that agree on the raw date field
and on the subject (after the empty-string default) and differ in the
defaulted absence type, the `|`-delimited PRE-HASH strings always differ —
the positional encoding is discriminating at that level, and the
identities (their truncated SHA-256 hashes, compared concretely in the
witness) differ as well unless the 128-bit truncated hashes collide.
Without the agreeing-subject hypothesis the property fails, because `|`
inside a field can shift positions (see the counterexample). -/
theorem identity_discrimination_amended (r1 r2 : RawRecord)
    (hdate : r1.date = r2.date)
    (hsubj : r1.subject.getD "" = r2.subject.getD "")
    (htype : ¬(r1.absence_type.getD "" = r2.absence_type.getD "")) :
    ¬(id_string r1 "absence" = id_string r2 "absence") := by
  intro h
  have e1 : id_string r1 "absence" =
      ("absence" ++ "|" ++ normalize_date (r2.date.getD "unknown") ++ "|" ++
        r2.subject.getD "" ++ "|") ++ r1.absence_type.getD "" := by
    simp [id_string, hdate, hsubj]
  have e2 : id_string r2 "absence" =
      ("absence" ++ "|" ++ normalize_date (r2.date.getD "unknown") ++ "|" ++
        r2.subject.getD "" ++ "|") ++ r2.absence_type.getD "" := by
    simp [id_string]
  rw [e1, e2] at h
  exact htype (string_append_cancel_left _ _ _ h)

/-- Witness for C8 (amended): two concrete absences differing only in
`absence_type` have different pre-hash strings (by the theorem) and, after
hashing and truncation to 32 hex characters, different identities
(computed concretely). -/
theorem identity_discrimination_amended_witness :
    (exAbs.date = exAbsOther.date ∧
      exAbs.subject.getD "" = exAbsOther.subject.getD "" ∧
      ¬(exAbs.absence_type.getD "" = exAbsOther.absence_type.getD "")) ∧
    ¬(id_string exAbs "absence" = id_string exAbsOther "absence") ∧
    ¬(generate_event_id exAbs "absence" = generate_event_id exAbsOther "absence") :=
  ⟨⟨rfl, rfl, by decide⟩,
    identity_discrimination_amended exAbs exAbsOther rfl rfl (by decide),
    by decide⟩

/-- C10 (implicit): `save_event_record` catches every storage exception and
returns `False` instead of raising; in particular when `create_entity`
succeeds but the verification read fails, the call reports failure even
though the record was durably created.  Concretely: a direct save under
`wVerifyFault` returns `false` while the record (with its `first_seen`
timestamp, `notified = false`) is in the table and every later exists
check finds it; and a filter run under `wFilterVerifyFault` returns the
empty output while the event's record is nevertheless persisted — the
event is never notified. -/
theorem save_persist_yet_report_failure :
    (save_event_record wVerifyFault "id1" "absence" "2025-11-19" "d" "raw").1 = false ∧
    lookupTable ((save_event_record wVerifyFault "id1" "absence" "2025-11-19" "d" "raw").2).table
        "id1" = some { event_type := "absence", date := "2025-11-19", description := "d",
                       raw_data := "raw", first_seen := "T0", notified := false } ∧
    (is_new_event ((save_event_record wVerifyFault "id1" "absence" "2025-11-19" "d" "raw").2)
        "id1").1 = false ∧
    (filter_new_events wFilterVerifyFault [exAbs] "absence").1 = [] ∧
    (lookupTable ((filter_new_events wFilterVerifyFault [exAbs] "absence").2).table
        (generate_event_id exAbs "absence")).isSome = true :=
  ⟨by decide, by decide, by decide, by decide, by decide⟩
